import Mathlib

/-!
# Verification of the Frogger arcade-game core (mMerlin/frontend-nanodegree-arcade-game)

Shallow embedding of the game-state and entity-lifecycle core of the
repository's JavaScript sources, together with proofs settling the frozen
specification claims.  The repository ships two historical revisions of the
same application: `js/app.js` and a later revision (the unnamed source file,
referred to here as `part_000`).  Where the two revisions agree the line
references below cite both; where they differ (the `select` state and the
`resurrect` routing exist only in the later revision) the later revision is
embedded and the difference is noted at the definition.

Conventions used throughout:
* JavaScript numbers are modelled as `ℚ` (all arithmetic performed by the
  embedded code paths is exact); grid coordinates are `ℤ`; array indices
  are `ℕ`.
* In-place mutation is modelled by explicit state passing.
* A JavaScript `throw` is modelled with `Except FroggerError`; the error
  branch discards the partially mutated object, which is sound here because
  every such throw is an unrecoverable halt of the game session.
* JavaScript truthiness tests on numbers (`x || d`, `if (obj.field)`) are
  modelled exactly: the number `0` and an absent value both take the
  default branch.
-/

namespace Frogger

/-! ## Errors thrown by the embedded code -/

inductive FroggerError where
  /-- Error thrown by `addSprite`:
  `'maxSprites value for row ... too small for level ...'`. -/
  | poolExhausted : FroggerError
  /-- Error thrown by `setState`:
  `'Invalid transition from "..." to "..." state'`. -/
  | invalidTransition : FroggerError
  /-- Error thrown by `setState`:
  `'New state transition ... while still processing previous transition'`. -/
  | reentrantTransition : FroggerError
  /-- Error thrown by `setStateNewlevel`:
  `'Game broken, no level ... configuration'`. -/
  | noLevelConfig : FroggerError
  /-- Error thrown by `collectReward`:
  `'Speed reduction bonus not implemented'`. -/
  | speedNotImplemented : FroggerError
  /-- Error thrown by `collectReward`:
  `'Unknown bonus found while collecting "..." reward'`. -/
  | unknownBonus : FroggerError
deriving DecidableEq, Repr

/-- Numeric JavaScript `x || d`: an absent value and the (falsy) number `0`
both fall back to the default `d`. -/
def jsNumOr (x : Option ℚ) (d : ℚ) : ℚ :=
  match x with
  | some v => if v = 0 then d else v
  | none => d

/-- JavaScript `Math.round` (round half toward positive infinity), as used
on score bonuses. -/
def jsRound (x : ℚ) : ℚ := ((⌊x + 1/2⌋ : ℤ) : ℚ)

/-! ## Sprite pool: the per-lane circular buffer

From `Frogger.prototype.addSprite` / `recycleSprite` (`js/app.js` lines
2175-2243; byte-identical in the later revision, lines 3082-3150).
`cap` is `this.APP_CONFIG.enemy.maxSprites[row]` (configured `[3, 4, 4]`
resp. `[5, 4, 4]`).  Only the `head`/`tail` indices matter for the buffer
logic; the result of `this.enemySprites[row][rowState.head].isOffEnd()` is
passed in as a boolean because it depends on sprite position and travel
direction, not on the buffer. -/

structure RowState where
  head : Nat
  tail : Nat
deriving DecidableEq, Repr

/-- The idiom `i += 1; if (i >= cap) { i = 0; }` used to advance `head`,
`tail`, the distance cursor and the pattern cursor. -/
def advanceIndex (cap i : Nat) : Nat :=
  if i + 1 ≥ cap then 0 else i + 1

/-- `Frogger.prototype.recycleSprite(row)`, restricted to its effect on the
buffer indices (it also stops the head sprite and parks it at
`this.limits.offLeftX`; those sprite fields are modelled where they are
read). -/
def recycleSprite (cap : Nat) (s : RowState) : RowState :=
  { s with head := advanceIndex cap s.head }

/-- `Frogger.prototype.addSprite(row)`.  Advances `tail`; if the sprite at
`head` has exited the visible field (`headOffEnd` is the `isOffEnd()` result
for the head sprite), recycles the head slot; then throws the
pool-exhaustion error when `tail === head`. -/
def addSprite (cap : Nat) (s : RowState) (headOffEnd : Bool) :
    Except FroggerError RowState :=
  let s1 : RowState := { s with tail := advanceIndex cap s.tail }
  let s2 : RowState := if headOffEnd then recycleSprite cap s1 else s1
  if s2.tail = s2.head then
    .error .poolExhausted
  else
    .ok s2

/-- The initial per-row buffer state from `APP_CONFIG.enemy.reset`
(`js/app.js` lines 1928-1933): `head = 0`, `tail = 1`, installed for every
row by `Frogger.prototype.clearEnemyPatterns`. -/
def initRowState : RowState := { head := 0, tail := 1 }

/-- One non-throwing buffer operation on a lane: a successful `addSprite`
(with either visibility status for the head sprite) or a `recycleSprite`. -/
inductive RowStep (cap : Nat) : RowState → RowState → Prop where
  | add (s s' : RowState) (headOffEnd : Bool)
      (h : addSprite cap s headOffEnd = .ok s') : RowStep cap s s'
  | recycle (s : RowState) : RowStep cap s (recycleSprite cap s)

/-- Buffer states reachable from the reset state by non-throwing operations. -/
inductive ReachableRow (cap : Nat) : RowState → Prop where
  | init : ReachableRow cap initRowState
  | step {s s' : RowState} : ReachableRow cap s → RowStep cap s s' →
      ReachableRow cap s'

/-- The number of active slots in a lane: the circular distance from `head`
to `tail`. -/
def activeCount (cap : Nat) (s : RowState) : Nat :=
  (s.tail + cap - s.head) % cap

/-- Well-formedness of the buffer indices: both are valid slot-array
indices. -/
def WfRow (cap : Nat) (s : RowState) : Prop := s.head < cap ∧ s.tail < cap

/-! ## Horizontal overlap test

From `Sprite.prototype.xIntersected` (`js/app.js` lines 506-541; identical
in the later revision, lines 578-613).  `selfX` is `this.position.x`,
`targetX` is `target.position.x`. -/

def xIntersected (selfX targetX sHalfWidth tHalfWidth : ℚ) : Bool :=
  let thisLeft := selfX - sHalfWidth
  let thisRight := selfX + sHalfWidth
  let targetLeft := targetX - tHalfWidth
  let targetRight := targetX + tHalfWidth
  if sHalfWidth > tHalfWidth then
    decide ((thisLeft < targetLeft ∧ targetLeft < thisRight) ∨
      (thisLeft < targetRight ∧ targetRight < thisRight))
  else
    decide ((targetLeft < thisLeft ∧ thisLeft < targetRight) ∨
      (targetLeft < thisRight ∧ thisRight < targetRight))

/-! ## Game state machine

From the later revision: `ENUMS.STATE` / `ENUMS.TRANSITIONS` (lines
1101-1168), `validateStateTransition` (lines 1185-1205), `setStateNewlevel`
(lines 1231-1259) and `setState` (lines 1274-1401).  The `js/app.js`
revision has no `select` state: there `TRANSITIONS[waiting] =
[newlevel, resurrect]`, `TRANSITIONS[newlevel] = [donelevel, gameover]`,
and the `resurrect` branch routes to `waiting` without touching `lvlIndex`;
everything else agrees.  The spec describes the later revision, which is
the one embedded here. -/

inductive GameState where
  | waiting
  | dieing
  | donelevel
  | gameover
  | resurrect
  | newlevel
  | running
  | select
deriving DecidableEq, Repr

/-- `ENUMS.CHANGE` of the later revision (`never`, `now`, `trigger`,
`delay`/`delayed`; `js/app.js` calls the last one `elapsed`). -/
inductive Change where
  | never
  | now
  | trigger
  | delayed
deriving DecidableEq, Repr

/-- `ENUMS.TRANSITIONS`: for each target state, the list of source states it
may legally be entered from (later revision, lines 1141-1168). -/
def TRANSITIONS : GameState → List GameState
  | .select => [.gameover, .newlevel]
  | .waiting => [.newlevel, .select]
  | .dieing => [.running]
  | .donelevel => [.running]
  | .gameover => [.resurrect]
  | .resurrect => [.dieing]
  | .newlevel => [.donelevel, .resurrect, .gameover]
  | .running => [.waiting]

/-- The `this.finiteState` object. -/
structure FiniteState where
  current : GameState := .gameover
  next : Option GameState := none
  changeOn : Change := .never
  lock : Bool := false
  doCurrent : Bool := false
  selectPending : Bool := false
deriving DecidableEq, Repr

/-- `validateStateTransition(targetState)`, run on `this.finiteState`.
Returns whether the transition is legal; when it is legal and matches the
pending transition, clears the pending transition.  The
`'Unknown target state'` guard cannot fire here because `GameState` ranges
exactly over the table's keys. -/
def validateStateTransition (fs : FiniteState) (target : GameState) :
    Bool × FiniteState :=
  if fs.current ∈ TRANSITIONS target then
    if fs.next = some target then
      (true, { fs with changeOn := .never, next := none })
    else
      (true, fs)
  else
    (false, fs)

/-- The HUD tracker message, abstracted to which template was posted (the
rendered text is a display-only concern). -/
inductive TrackerMsg where
  | died (reason : String)
  | gameover
  | selectAvatar
deriving DecidableEq, Repr

/-- One lane's sprite array: per-slot horizontal positions
(`this.enemySprites[row][i].position.x`) and speeds (`.speed`). -/
structure LaneBuf where
  xs : List ℚ := []
  speeds : List ℚ := []
  head : Nat := 0
  tail : Nat := 1
deriving DecidableEq, Repr

/-- Indices visited by the circular walk
`while (cur !== tail) { ...; cur = advance(cur); }` (exclusive of `tail`),
with explicit fuel; fuel `cap` covers every well-formed buffer state. -/
def walkActive (cap fuel cur tail : Nat) : List Nat :=
  match fuel with
  | 0 => []
  | fuel' + 1 =>
    if cur = tail then [] else cur :: walkActive cap fuel' (advanceIndex cap cur) tail

/-- Indices visited by the `freezeEnemies` walk, which stops AFTER handling
the `tail` slot (inclusive walk, `js/app.js` lines 2384-2404). -/
def walkActiveIncl (cap fuel cur tail : Nat) : List Nat :=
  match fuel with
  | 0 => []
  | fuel' + 1 =>
    if cur = tail then [cur]
    else cur :: walkActiveIncl cap fuel' (advanceIndex cap cur) tail

/-- Set the listed slots' speeds to zero. -/
def zeroSpeedsAt (speeds : List ℚ) (idxs : List Nat) : List ℚ :=
  speeds.mapIdx (fun i v => if idxs.contains i then 0 else v)

/-- `Frogger.prototype.freezeEnemies()` on one lane: stop every sprite from
`head` through `tail` inclusive. -/
def freezeLane (cap : Nat) (l : LaneBuf) : LaneBuf :=
  { l with speeds := zeroSpeedsAt l.speeds (walkActiveIncl cap (cap + 1) l.head l.tail) }

/-- The application state touched by the state machine.  Field defaults
describe a quiescent instance and exist only so that concrete witness
states can be written compactly; the semantics lives in the functions. -/
structure GState where
  finiteState : FiniteState := {}
  lives : ℚ := 0
  score : ℚ := 0
  lvlIndex : ℤ := 0
  numLevels : Nat := 1
  resetGame : Bool := false
  startLives : ℚ := 5
  elapsedRunning : ℚ := 0
  elapsedWaiting : ℚ := 0
  elapsedState : ℚ := 0
  timeSpeed : ℚ := 1
  levelTime : ℚ := 60
  playerSleeping : Bool := false
  scrollMessage : Bool := false
  message : Option TrackerMsg := none
  reason : String := ""
  lanes : List LaneBuf := []
  maxSprites : List Nat := []
deriving DecidableEq, Repr

/-- `Frogger.prototype.freezeEnemies()`: stop the active window of every
lane. -/
def freezeEnemies (g : GState) : GState :=
  { g with lanes := List.zipWith (fun cap l => freezeLane cap l) g.maxSprites g.lanes }

/-- `setStateNewlevel()` (later revision, lines 1231-1259): reset game
progress when a new game starts, advance the level index, reset the level
clock, fail when no configuration exists for the level, and queue the
follow-up state (`select` when an avatar choice is pending, else
`waiting`) as an immediate change. -/
def setStateNewlevel (g : GState) : Except FroggerError GState :=
  let g :=
    if g.resetGame then
      { g with resetGame := false, lvlIndex := -1, lives := g.startLives, score := 0 }
    else g
  let g := { g with lvlIndex := g.lvlIndex + 1, elapsedRunning := 0, timeSpeed := 1 }
  if (g.numLevels : ℤ) ≤ g.lvlIndex then
    .error .noLevelConfig
  else
    let nxt := if g.finiteState.selectPending then GameState.select else GameState.waiting
    .ok { g with
      finiteState :=
        { g.finiteState with next := some nxt, changeOn := .now, doCurrent := true } }

/-- `setState(newState)` — the `state` property setter (later revision,
lines 1274-1401).  Checks the re-entrancy lock, validates the transition
against `TRANSITIONS`, runs the per-target entry processing, then the
per-source cleanup, and finally commits the new current state. -/
def setState (g : GState) (newState : GameState) : Except FroggerError GState :=
  let lockStatus := g.finiteState.lock
  let g := { g with finiteState := { g.finiteState with lock := true } }
  if lockStatus then
    .error .reentrantTransition
  else
    let vr := validateStateTransition g.finiteState newState
    if !vr.1 then
      .error .invalidTransition
    else
      let g := { g with finiteState := vr.2 }
      do
        let g ←
          match newState with
          | .waiting =>
            let ew : ℚ := if g.finiteState.current = .select then g.elapsedState else 0
            .ok { g with
              elapsedRunning := 1/10000,
              elapsedWaiting := ew,
              finiteState :=
                { g.finiteState with next := some .running, changeOn := .delayed } }
          | .running =>
            .ok { g with scrollMessage := false, playerSleeping := false }
          | .newlevel => setStateNewlevel g
          | .dieing =>
            let g := freezeEnemies g
            let g := { g with message := some (.died g.reason) }
            let g :=
              if g.levelTime < g.elapsedRunning then
                { g with elapsedRunning := g.levelTime }
              else g
            .ok { g with
              finiteState :=
                { g.finiteState with
                  next := some .resurrect, changeOn := .trigger, doCurrent := true } }
          | .donelevel =>
            let g := freezeEnemies g
            .ok { g with
              finiteState :=
                { g.finiteState with
                  next := some .newlevel, changeOn := .trigger, doCurrent := true } }
          | .resurrect =>
            let g := { g with lives := g.lives - 1 }
            let g :=
              if g.lives ≤ (0 : ℚ) then
                { g with finiteState := { g.finiteState with next := some .gameover } }
              else
                { g with
                  lvlIndex := g.lvlIndex - 1,
                  finiteState :=
                    { g.finiteState with next := some .newlevel, doCurrent := true } }
            .ok { g with finiteState := { g.finiteState with changeOn := .now } }
          | .select =>
            .ok { g with
              playerSleeping := false,
              message := some .selectAvatar,
              finiteState :=
                { g.finiteState with
                  selectPending := false, next := some .waiting, changeOn := .trigger } }
          | .gameover =>
            .ok { g with
              resetGame := true,
              message := some .gameover,
              finiteState :=
                { g.finiteState with next := some .newlevel, changeOn := .trigger } }
        let g :=
          if g.finiteState.current = .running ∨ g.finiteState.current = .select then
            { g with playerSleeping := true }
          else g
        .ok { g with
          finiteState := { g.finiteState with current := newState, lock := false },
          elapsedState := 0 }

/-! ## Collision pipeline

From `Frogger.prototype.goalCheck` / `playerBoundsCheck` /
`playerEnemyCheck` / `collisionCheck` (`js/app.js` lines 2748-2870; later
revision lines 3864-3978).  The environment collects exactly the fields the
four functions read.  The assignment `this.state = ...` is the FSM setter
(`setState` above, always legal from `running`, the only state in which
`collisionCheck` runs); here it is recorded as the requested transition.
The later revision's `collisionCheck` first calls `collectPrizes()`, which
never changes the game state and is modelled with `collectReward` below. -/

structure GoalRule where
  row : ℤ
  cols : List ℤ
deriving DecidableEq, Repr

structure CollisionEnv where
  playerRow : ℤ := 0
  playerCol : ℤ := 0
  playerX : ℚ := 0
  goals : List GoalRule := []
  gridRows : ℤ := 6
  gridCols : ℤ := 5
  topRow : ℤ := 1
  lanes : List LaneBuf := []
  maxSprites : List Nat := []
  avHalfWidth : ℚ := 0
  enHalfWidth : ℚ := 0
  reason : Option String := none
  request : Option GameState := none
deriving DecidableEq, Repr

/-- Does some configured goal cell match the avatar's (row, column)?  The
source iterates `goals` and reacts to the first match; since every match
triggers the same assignment, the fold over the list is equivalent. -/
def goalHit (e : CollisionEnv) : Bool :=
  e.goals.any (fun gl => playerOnGoal e gl)
where
  playerOnGoal (e : CollisionEnv) (gl : GoalRule) : Bool :=
    decide (e.playerRow = gl.row) && gl.cols.contains e.playerCol

/-- `Frogger.prototype.goalCheck()`. -/
def goalCheck (e : CollisionEnv) : Bool × CollisionEnv :=
  if goalHit e then (true, { e with request := some .donelevel })
  else (false, e)

/-- Is the avatar outside the grid? -/
def boundsHit (e : CollisionEnv) : Bool :=
  decide (e.playerRow < 0 ∨ e.gridRows ≤ e.playerRow ∨
    e.playerCol < 0 ∨ e.gridCols ≤ e.playerCol)

/-- `Frogger.prototype.playerBoundsCheck()`. -/
def playerBoundsCheck (e : CollisionEnv) : Bool × CollisionEnv :=
  if boundsHit e then
    (true, { e with
      reason := some "from falling off the world", request := some .dieing })
  else (false, e)

/-- Does the avatar horizontally overlap some sprite in the active window
(`head` to exclusive `tail`) of the given lane? -/
def laneHit (e : CollisionEnv) (cap : Nat) (lane : LaneBuf) : Bool :=
  (walkActive cap cap lane.head lane.tail).any
    (fun i => xIntersected e.playerX (lane.xs.getD i 0) e.avHalfWidth e.enHalfWidth)

/-- The lane for the avatar's row: `enIdx = player.row - topRow;
enRow = enemySprites[enIdx]` — a negative or out-of-range index yields
`undefined`, so no lane. -/
def laneForPlayer (e : CollisionEnv) : Option (Nat × LaneBuf) :=
  if 0 ≤ e.playerRow - e.topRow then
    match e.lanes.get? (e.playerRow - e.topRow).toNat with
    | some lane => some ((e.playerRow - e.topRow).toNat, lane)
    | none => none
  else none

/-- Is there a lane on the avatar's row with a sprite overlapping the
avatar? -/
def enemyHit (e : CollisionEnv) : Bool :=
  match laneForPlayer e with
  | some (idx, lane) => laneHit e (e.maxSprites.getD idx 0) lane
  | none => false

/-- `Frogger.prototype.playerEnemyCheck()`. -/
def playerEnemyCheck (e : CollisionEnv) : Bool × CollisionEnv :=
  if enemyHit e then
    (true, { e with reason := some "from hit and run", request := some .dieing })
  else (false, e)

/-- `Frogger.prototype.collisionCheck()`: goal, then bounds, then lane
collision, each returning immediately when it triggers. -/
def collisionCheck (e : CollisionEnv) : Bool × CollisionEnv :=
  let gr := goalCheck e
  if gr.1 then (true, gr.2)
  else
    let br := playerBoundsCheck gr.2
    if br.1 then (true, br.2)
    else
      let er := playerEnemyCheck br.2
      if er.1 then (true, er.2)
      else (false, er.2)

/-! ## Pattern engine

From `Frogger.prototype.cycleEnemyPatterns` (`js/app.js` lines 2663-2718;
later revision lines 3761-3809).  The per-row update of
`currentPatterns[row]` is embedded; `initPattern` (which repositions the
lead sprite and throws the fatal `'unknown pattern change combination'`
error on unsupported layouts) does not touch these fields and is outside
the claims settled here.  `if (ptrnConfig.speed)` and
`if (ptrnConfig.seconds)` are truthiness tests, so the number `0` inherits
like an absent field; `if (ptrnConfig.distances)` tests an array, and
arrays are always truthy. -/

structure PatternConfig where
  speed : Option ℚ := none
  distances : Option (List ℚ) := none
  seconds : Option ℚ := none
  startDistance : Option ℚ := none
deriving DecidableEq, Repr

/-- The pattern-related fields of `currentPatterns[row]` (the same object
also carries the `head`/`tail` buffer indices modelled by `RowState`). -/
structure RowPattern where
  currentPattern : Nat := 0
  speed : ℚ := 0
  distances : List ℚ := []
  cntDistances : Nat := 0
  seconds : ℚ := 0
  expires : ℚ := 0
deriving DecidableEq, Repr

/-- The body of the expired-pattern branch: advance the pattern cursor with
wraparound, overlay the specified fields (carrying unspecified ones
forward), and accumulate the new duration onto the expiry timestamp. -/
def advanceRowPattern (rowConfig : List PatternConfig) (rs : RowPattern) : RowPattern :=
  let idx := advanceIndex rowConfig.length rs.currentPattern
  let cfg := rowConfig.getD idx {}
  let speed' :=
    match cfg.speed with
    | some v => if v = 0 then rs.speed else v
    | none => rs.speed
  let distances' :=
    match cfg.distances with
    | some ds => ds
    | none => rs.distances
  let cntDistances' :=
    match cfg.distances with
    | some ds => ds.length
    | none => rs.cntDistances
  let seconds' :=
    match cfg.seconds with
    | some v => if v = 0 then rs.seconds else v
    | none => rs.seconds
  { rs with
    currentPattern := idx,
    speed := speed',
    distances := distances',
    cntDistances := cntDistances',
    seconds := seconds',
    expires := rs.expires + seconds' }

/-- One row of `cycleEnemyPatterns`: the update fires only when the lane's
expiry time has been reached by the running-state clock. -/
def cycleRowPattern (elapsedRunning : ℚ) (rowConfig : List PatternConfig)
    (rs : RowPattern) : RowPattern :=
  if rs.expires ≤ elapsedRunning then advanceRowPattern rowConfig rs else rs

/-! ## Reward application

From `Frogger.prototype.collectReward` (`js/app.js` lines 2412-2445; later
revision lines 3534-3567).  A reward table entry is the ordered list of a
reward object's own properties, each a bonus key with its numeric value.
The explicit unknown-key validation is commented out in the source; the
lookup of an unknown key yields `undefined` and `for (bonus in undefined)`
performs zero iterations. -/

inductive BonusKey where
  | score
  | lives
  | time
  | speed
  | unknown (key : String)
deriving DecidableEq, Repr

/-- The game-progress fields mutated by `collectReward`. -/
structure Progress where
  score : ℚ := 0
  lives : ℚ := 0
  elapsedRunning : ℚ := 0
deriving DecidableEq, Repr

/-- The `for (bonus in rwdObj)` loop body, applied to each own property in
turn: `score` adds the rounded, multiplied value, `lives` adds, `time`
subtracts from the running clock, `speed` and unknown keys throw. -/
def applyBonuses (p : Progress) (multiplier : Option ℚ) :
    List (BonusKey × ℚ) → Except FroggerError Progress
  | [] => .ok p
  | (k, v) :: rest =>
    match k with
    | .score =>
      applyBonuses { p with score := p.score + jsRound (v * jsNumOr multiplier 1) }
        multiplier rest
    | .lives => applyBonuses { p with lives := p.lives + v } multiplier rest
    | .time =>
      applyBonuses { p with elapsedRunning := p.elapsedRunning - v } multiplier rest
    | .speed => .error .speedNotImplemented
    | .unknown _ => .error .unknownBonus

/-- `Frogger.prototype.collectReward(reward, multiplier)`. -/
def collectReward (rewards : List (String × List (BonusKey × ℚ))) (p : Progress)
    (reward : String) (multiplier : Option ℚ) : Except FroggerError Progress :=
  match rewards.lookup reward with
  | none => .ok p
  | some bonuses => applyBonuses p multiplier bonuses

/-! ## Prize scheduler wait-time computation

From `Frogger.prototype.parseTimeConfig` (later revision, lines 3235-3243)
and `Frogger.prototype.prizeWaitTime` (lines 3330-3352).  Each
`Math.random()` draw is passed in explicitly, one pair per time-config
object in source order. -/

structure TimeConfig where
  base : ℚ := 0
  additional : ℚ := 0
  fixed : ℚ := 0
  delta : ℚ := 0
deriving DecidableEq, Repr

/-- The two `Math.random()` draws a single `parseTimeConfig` call makes:
`a` scales `delta`, `b` scales `additional`. -/
structure RandPair where
  a : ℚ := 0
  b : ℚ := 0
deriving DecidableEq, Repr

/-- `parseTimeConfig(obj, previous)`:
`(fixed + delta*rand())*previous + base + additional*rand()`, or `0` when
no configuration object is present.  An absent numeric property and the
value `0` coincide (`obj.fixed || 0`). -/
def parseTimeConfig (obj : Option TimeConfig) (previous : ℚ) (r : RandPair) : ℚ :=
  match obj with
  | none => 0
  | some o => (o.fixed + o.delta * r.a) * previous + o.base + o.additional * r.b

/-- A prize rule's `condition.when` object: the five optional time-offset
configurations plus the two bookkeeping timestamps maintained by the
scheduler (`undefined` until first written). -/
structure WhenRule where
  collected : Option TimeConfig := none
  expired : Option TimeConfig := none
  failed : Option TimeConfig := none
  checked : Option TimeConfig := none
  elapsed : Option TimeConfig := none
  failureTime : Option ℚ := none
  checkTime : Option ℚ := none
deriving DecidableEq, Repr

/-- `this.pendingPrize`'s reference timestamps (`null` until a prize has
been collected resp. has expired). -/
structure PendingPrizeTimes where
  collectionTime : Option ℚ := none
  expirationTime : Option ℚ := none
deriving DecidableEq, Repr

/-- The five `Math.random()` pairs drawn by one `prizeWaitTime` call, in
source order. -/
structure PrizeRands where
  collected : RandPair := {}
  expired : RandPair := {}
  failed : RandPair := {}
  elapsed : RandPair := {}
  checked : RandPair := {}
deriving DecidableEq, Repr

/-- `prizeWaitTime(rule, previous)`: returns the computed wait limit and
the rule with its updated `checkTime`.  Missing collection/expiry reference
times default to the far past (`-999`); a missing failure time likewise
(via an explicit `=== undefined` test); a missing prior `checkTime`
defaults to `0`. -/
def prizeWaitTime (pp : PendingPrizeTimes) (elapsedRunning : ℚ) (rule : WhenRule)
    (previous : ℚ) (r : PrizeRands) : ℚ × WhenRule :=
  let bCollect := jsNumOr pp.collectionTime (-999)
  let bExpire := jsNumOr pp.expirationTime (-999)
  let bFail := rule.failureTime.getD (-999)
  let bCheck := jsNumOr rule.checkTime 0
  let tCollect := bCollect + parseTimeConfig rule.collected previous r.collected
  let tExpire := bExpire + parseTimeConfig rule.expired previous r.expired
  let tFail := bFail + parseTimeConfig rule.failed previous r.failed
  let tElapse := parseTimeConfig rule.elapsed previous r.elapsed
  let mCheck := max (max (max tCollect tExpire) tFail) tElapse
  let tCheck := parseTimeConfig rule.checked previous r.checked + elapsedRunning
  (max mCheck bCheck, { rule with checkTime := some (max mCheck tCheck) })

/-- The Scenario D rule: `collected: {base: 3}` and nothing else. -/
def scenarioDRule : WhenRule := { collected := some { base := 3 } }

/-! # Theorems -/

/-! ## Sprite-pool invariant lemmas -/

theorem advanceIndex_lt (cap i : Nat) (hcap : 0 < cap) :
    advanceIndex cap i < cap := by
  unfold advanceIndex
  split
  · exact hcap
  · omega

theorem wfRow_recycle {cap : Nat} {s : RowState} (hcap : 0 < cap)
    (hs : WfRow cap s) : WfRow cap (recycleSprite cap s) :=
  ⟨advanceIndex_lt cap s.head hcap, hs.2⟩

theorem wfRow_addSprite {cap : Nat} {s s' : RowState} {b : Bool}
    (hcap : 0 < cap) (hs : WfRow cap s) (h : addSprite cap s b = .ok s') :
    WfRow cap s' := by
  cases b <;> simp only [addSprite, recycleSprite, Bool.false_eq_true,
    if_neg, if_pos, ite_true, ite_false] at h <;>
    split at h <;> simp only [Except.ok.injEq, reduceCtorEq] at h <;>
    subst h
  · exact ⟨hs.1, advanceIndex_lt cap s.tail hcap⟩
  · exact ⟨advanceIndex_lt cap s.head hcap, advanceIndex_lt cap s.tail hcap⟩

theorem wfRow_reachable {cap : Nat} {s : RowState} (hcap : 2 ≤ cap)
    (h : ReachableRow cap s) : WfRow cap s := by
  induction h with
  | init =>
      exact ⟨by simp only [initRowState]; omega, by simp only [initRowState]; omega⟩
  | step _ hstep ih =>
      cases hstep with
      | add _ _ hok => exact wfRow_addSprite (by omega) ih hok
      | recycle => exact wfRow_recycle (by omega) ih

/-! ## C1: pool exhaustion on admit -/

/-- C1 counterexample: with capacity 2 and the reset buffer (`head = 0`,
`tail = 1`), advancing `tail` by one slot (mod capacity) would make it
equal `head` — the claim's "buffer already full" condition — yet when the
head sprite has exited the field, `addSprite` recycles the head slot and
succeeds instead of throwing, so the claimed "always throws" is false. -/
theorem C1_counterexample :
    advanceIndex 2 initRowState.tail = initRowState.head ∧
    addSprite 2 initRowState true = .ok { head := 1, tail := 0 } := by
  constructor
  · rfl
  · rfl

/-- C1 (amended): calling `addSprite` when advancing `tail` by one slot
(mod capacity) would make it equal `head` AND the head sprite has not
exited the visible field always throws the fatal pool-exhaustion error
(`'maxSprites value for row ... too small'`); the slot is never silently
dropped or overwritten.  (When the head sprite has exited, the head slot is
recycled first and the admit succeeds.) -/
theorem C1_pool_exhaustion_throws (cap : Nat) (s : RowState)
    (hfull : advanceIndex cap s.tail = s.head) :
    addSprite cap s false = .error .poolExhausted := by
  simp [addSprite, hfull]

/-- C1 witness: capacity 3, `head = 2`, `tail = 1`, head sprite still on
the field: the admit throws the pool-exhaustion error. -/
theorem C1_witness :
    advanceIndex 3 (RowState.mk 2 1).tail = (RowState.mk 2 1).head ∧
    addSprite 3 (RowState.mk 2 1) false = .error .poolExhausted :=
  ⟨by decide, C1_pool_exhaustion_throws 3 (RowState.mk 2 1) (by decide)⟩

/-! ## C2: the active window stays bounded -/

/-- C2: for every lane capacity of at least 2 (the configured `maxSprites`
values are 3, 4, 4 resp. 5, 4, 4) and every buffer state reachable from
the reset state by a non-throwing sequence of `addSprite` and
`recycleSprite` operations, `head` and `tail` stay in the index range
`[0, cap)` and the number of active slots (the circular distance from
`head` to `tail`) never exceeds `cap - 1`. -/
theorem C2_active_window_bounded (cap : Nat) (s : RowState) (hcap : 2 ≤ cap)
    (h : ReachableRow cap s) :
    s.head < cap ∧ s.tail < cap ∧ activeCount cap s ≤ cap - 1 := by
  obtain ⟨h1, h2⟩ := wfRow_reachable hcap h
  have h3 : activeCount cap s < cap := Nat.mod_lt _ (by omega)
  exact ⟨h1, h2, by omega⟩

/-- C2 witness: the capacity-3 state reached from reset by one successful
admit (head sprite still on field) satisfies the bounds. -/
theorem C2_witness :
    (RowState.mk 0 2).head < 3 ∧ (RowState.mk 0 2).tail < 3 ∧
      activeCount 3 (RowState.mk 0 2) ≤ 3 - 1 :=
  C2_active_window_bounded 3 (RowState.mk 0 2) (by decide)
    (ReachableRow.step ReachableRow.init
      (RowStep.add initRowState (RowState.mk 0 2) false rfl))

/-! ## C3: the horizontal overlap test -/

/-- C3 counterexample: with equal half-widths (both 1) and coincident
centres (both sprites at 0) the two intervals strictly overlap
(|0 − 0| < 1 + 1) but `xIntersected` returns false, refuting the claimed
exact equivalence with strict interval overlap. -/
theorem C3_counterexample :
    xIntersected 0 0 1 1 = false ∧ |(0 : ℚ) - 0| < 1 + 1 := by
  constructor
  · simp only [xIntersected]
    norm_num
  · norm_num

/-- C3 (amended): for nonnegative half-widths, `xIntersected` returns true
exactly when the intervals strictly overlap
(|selfX − targetX| < sHalfWidth + tHalfWidth), except that with equal
half-widths it additionally requires the centres to differ; the
containment special-casing by the smaller half-width is otherwise exact.
In particular the claim's concrete instance (avatar at 105 with half-width
15 against a sprite at 100 with half-width 20) intersects. -/
theorem C3_strict_overlap (selfX targetX sHalfWidth tHalfWidth : ℚ)
    (hs : 0 ≤ sHalfWidth) (ht : 0 ≤ tHalfWidth) :
    (xIntersected selfX targetX sHalfWidth tHalfWidth = true ↔
      (|selfX - targetX| < sHalfWidth + tHalfWidth ∧
        (sHalfWidth = tHalfWidth → selfX ≠ targetX))) := by
  simp only [xIntersected]
  rw [abs_sub_lt_iff]
  split
  · rename_i hgt
    rw [decide_eq_true_eq]
    constructor
    · rintro (⟨h1, h2⟩ | ⟨h1, h2⟩)
      · refine ⟨⟨by linarith, by linarith⟩, fun he => absurd (he ▸ hgt) (lt_irrefl _)⟩
      · refine ⟨⟨by linarith, by linarith⟩, fun he => absurd (he ▸ hgt) (lt_irrefl _)⟩
    · rintro ⟨⟨h1, h2⟩, _⟩
      by_cases hd : selfX - targetX < sHalfWidth - tHalfWidth
      · exact Or.inl ⟨by linarith, by linarith⟩
      · exact Or.inr ⟨by linarith, by linarith⟩
  · rename_i hle
    replace hle : sHalfWidth ≤ tHalfWidth := le_of_not_lt hle
    rw [decide_eq_true_eq]
    constructor
    · rintro (⟨h1, h2⟩ | ⟨h1, h2⟩)
      · refine ⟨⟨by linarith, by linarith⟩, fun he hxy => ?_⟩
        rw [hxy, he] at h1
        linarith
      · refine ⟨⟨by linarith, by linarith⟩, fun he hxy => ?_⟩
        rw [hxy, he] at h2
        linarith
    · rintro ⟨⟨h1, h2⟩, himp⟩
      rcases lt_or_eq_of_le hle with hlt | heq
      · by_cases hd : sHalfWidth - tHalfWidth < selfX - targetX
        · exact Or.inl ⟨by linarith, by linarith⟩
        · exact Or.inr ⟨by linarith, by linarith⟩
      · have hne : selfX ≠ targetX := himp heq
        rcases lt_or_gt_of_ne hne with hlt | hgt
        · exact Or.inr ⟨by linarith [heq], by linarith [heq]⟩
        · exact Or.inl ⟨by linarith [heq], by linarith [heq]⟩

/-- C3 witness: the amended equivalence at the claim's concrete instance
(avatar at 105 half-width 15, sprite at 100 half-width 20), which does
intersect. -/
theorem C3_witness :
    ((0 : ℚ) ≤ 15 ∧ (0 : ℚ) ≤ 20 ∧
      (xIntersected 105 100 15 20 = true ↔
        (|(105 : ℚ) - 100| < 15 + 20 ∧ ((15 : ℚ) = 20 → (105 : ℚ) ≠ 100)))) ∧
    xIntersected 105 100 15 20 = true :=
  ⟨⟨by norm_num, by norm_num,
    C3_strict_overlap 105 100 15 20 (by norm_num) (by norm_num)⟩,
   by simp only [xIntersected]; norm_num⟩

/-! ## C4: collision-check evaluation order -/

/-- C4: `collisionCheck` evaluates the goal check first, then the bounds
check, then the lane-collision check, and the first check that triggers
returns immediately, so at most one of the three can request a transition
per frame; in particular an avatar standing on a configured goal cell
yields exactly the `donelevel` transition, with the bounds and
lane-collision outcomes never applied. -/
theorem C4_check_order (e : CollisionEnv) :
    (goalHit e = true →
      collisionCheck e = (true, { e with request := some .donelevel })) ∧
    (goalHit e = false → boundsHit e = true →
      collisionCheck e = (true, { e with
        reason := some "from falling off the world", request := some .dieing })) ∧
    (goalHit e = false → boundsHit e = false → enemyHit e = true →
      collisionCheck e = (true, { e with
        reason := some "from hit and run", request := some .dieing })) ∧
    (goalHit e = false → boundsHit e = false → enemyHit e = false →
      collisionCheck e = (false, e)) := by
  refine ⟨fun h1 => ?_, fun h1 h2 => ?_, fun h1 h2 h3 => ?_, fun h1 h2 h3 => ?_⟩
  · simp [collisionCheck, goalCheck, h1]
  · simp [collisionCheck, goalCheck, playerBoundsCheck, h1, h2]
  · simp [collisionCheck, goalCheck, playerBoundsCheck, playerEnemyCheck, h1, h2, h3]
  · simp [collisionCheck, goalCheck, playerBoundsCheck, playerEnemyCheck, h1, h2, h3]

/-- C4 witness: an avatar on a configured goal cell that simultaneously
lies outside the grid (both the goal check and the bounds check would
fire); the frame's result is exactly the goal transition. -/
theorem C4_witness :
    goalHit { playerRow := 2, playerCol := -1,
              goals := [{ row := 2, cols := [-1] }] } = true ∧
    boundsHit { playerRow := 2, playerCol := -1,
                goals := [{ row := 2, cols := [-1] }] } = true ∧
    collisionCheck { playerRow := 2, playerCol := -1,
                     goals := [{ row := 2, cols := [-1] }] } =
      (true, { playerRow := 2, playerCol := -1,
               goals := [{ row := 2, cols := [-1] }], request := some .donelevel }) :=
  ⟨rfl, rfl,
    (C4_check_order { playerRow := 2, playerCol := -1,
                      goals := [{ row := 2, cols := [-1] }] }).1 rfl⟩

/-! ## C5: invalid state transitions throw -/

/-- C5: for every target state and every current state not contained in
that target's allowed-source list in `TRANSITIONS`, requesting the
transition through the state setter (with no transition already in flight)
throws the fatal invalid-transition error instead of performing or
queueing the change; in particular entering `dieing` from `select` (whose
allowed sources are only `running`) throws. -/
theorem C5_invalid_transition_throws (g : GState) (target : GameState)
    (hlock : g.finiteState.lock = false)
    (hsrc : g.finiteState.current ∉ TRANSITIONS target) :
    setState g target = .error .invalidTransition := by
  simp [setState, hlock, validateStateTransition, hsrc]

/-- C5 witness: Scenario E — requesting `dieing` while in `select` throws
the invalid-transition error. -/
theorem C5_witness :
    ({ finiteState := { current := GameState.select } } : GState).finiteState.lock
        = false ∧
    ({ finiteState := { current := GameState.select } } : GState).finiteState.current
        ∉ TRANSITIONS .dieing ∧
    setState { finiteState := { current := GameState.select } } .dieing =
      .error .invalidTransition :=
  ⟨rfl, by decide, C5_invalid_transition_throws _ _ rfl (by decide)⟩

/-! ## C6: resurrect entry processing -/

/-- C6: entering `resurrect` (legal only from `dieing`) decrements the
lives counter by exactly one; when the decremented count is exhausted
(≤ 0) the pending next state is `gameover`, otherwise it is `newlevel`
with the level index decremented so the same level repeats, and in both
cases the pending change is applied immediately (change-on-now). -/
theorem C6_resurrect_entry (g : GState)
    (hlock : g.finiteState.lock = false)
    (hsrc : g.finiteState.current ∈ TRANSITIONS .resurrect) :
    ∃ g', setState g .resurrect = .ok g' ∧
      g'.lives = g.lives - 1 ∧
      g'.finiteState.changeOn = Change.now ∧
      g'.finiteState.current = GameState.resurrect ∧
      (g.lives - 1 ≤ 0 →
        g'.finiteState.next = some .gameover ∧ g'.lvlIndex = g.lvlIndex) ∧
      (0 < g.lives - 1 →
        g'.finiteState.next = some .newlevel ∧ g'.lvlIndex = g.lvlIndex - 1) := by
  have hc : g.finiteState.current = GameState.dieing := by
    simpa [TRANSITIONS] using hsrc
  by_cases hnext : g.finiteState.next = some GameState.resurrect <;>
    by_cases hl : g.lives - 1 ≤ (0 : ℚ) <;>
      simp only [setState, validateStateTransition, hlock, hc, hnext, hl,
        TRANSITIONS, Except.bind, bind, if_pos, if_neg, ite_true, ite_false,
        Bool.not_true, Bool.not_false, List.mem_cons, List.not_mem_nil, or_false,
        reduceCtorEq, Bool.false_eq_true, if_true, if_false]
  all_goals refine ⟨_, rfl, rfl, rfl, rfl, fun h1 => ?_, fun h2 => ?_⟩
  all_goals first
    | exact ⟨rfl, rfl⟩
    | exact h1.elim
    | (exfalso; linarith)

/-- C6 witness: from `dieing` with a single life left, entering
`resurrect` decrements lives to zero and routes to `gameover`
immediately. -/
theorem C6_witness :
    ∃ g', setState { finiteState := { current := GameState.dieing }, lives := 1 }
        GameState.resurrect = .ok g' ∧
      g'.lives = (1 : ℚ) - 1 ∧
      g'.finiteState.changeOn = Change.now ∧
      g'.finiteState.current = GameState.resurrect ∧
      ((1 : ℚ) - 1 ≤ 0 →
        g'.finiteState.next = some .gameover ∧ g'.lvlIndex = 0) ∧
      (0 < (1 : ℚ) - 1 →
        g'.finiteState.next = some .newlevel ∧ g'.lvlIndex = 0 - 1) :=
  C6_resurrect_entry _ rfl (by decide)

/-! ## C7: pattern-field inheritance -/

/-- C7: when a lane's pattern advances, every field the new pattern
configuration leaves unspecified (speed, distances/spacing,
seconds/duration) is carried forward unchanged from the previous
pattern. -/
theorem C7_unspecified_fields_inherited (rowConfig : List PatternConfig)
    (rs : RowPattern) (cfg : PatternConfig)
    (hcfg : rowConfig.getD (advanceIndex rowConfig.length rs.currentPattern) {} = cfg) :
    (cfg.speed = none → (advanceRowPattern rowConfig rs).speed = rs.speed) ∧
    (cfg.distances = none →
      (advanceRowPattern rowConfig rs).distances = rs.distances ∧
      (advanceRowPattern rowConfig rs).cntDistances = rs.cntDistances) ∧
    (cfg.seconds = none → (advanceRowPattern rowConfig rs).seconds = rs.seconds) := by
  subst hcfg
  refine ⟨fun h => ?_,
    fun h => ⟨?_, ?_⟩,
    fun h => ?_⟩ <;>
  · simp only [advanceRowPattern, h]

/-- C7 witness: the round-trip law — a pattern with no `speed` field
following a pattern running at speed 40 runs at exactly speed 40. -/
theorem C7_witness :
    (advanceRowPattern [{ speed := some 40, seconds := some 5 }, {}]
      { speed := 40, seconds := 5, expires := 5 }).speed = 40 :=
  (C7_unspecified_fields_inherited
    [{ speed := some 40, seconds := some 5 }, {}]
    { speed := 40, seconds := 5, expires := 5 } {} rfl).1 rfl

/-! ## C8: expiry accumulation (drift allowed) -/

/-- C8: when a lane's pattern advances, the new expiry time is the
previous expiry plus the new pattern's (effective) duration — accumulated,
not resynchronized: the result does not depend on the current level time
that triggered the advance. -/
theorem C8_expiry_accumulates (elapsedRunning : ℚ) (rowConfig : List PatternConfig)
    (rs : RowPattern) (hexp : rs.expires ≤ elapsedRunning) :
    (cycleRowPattern elapsedRunning rowConfig rs).expires =
      rs.expires + (cycleRowPattern elapsedRunning rowConfig rs).seconds ∧
    (∀ t : ℚ, rs.expires ≤ t →
      cycleRowPattern t rowConfig rs = cycleRowPattern elapsedRunning rowConfig rs) := by
  constructor
  · simp [cycleRowPattern, hexp, advanceRowPattern]
  · intro t ht
    simp [cycleRowPattern, hexp, ht]

/-- C8 witness: a pattern that expired at time 7 is advanced at level time
10 with a 5-second successor: the new expiry is 12 (7 + 5), not 15, and
advancing at level time 20 instead gives the same result. -/
theorem C8_witness :
    ((cycleRowPattern 10 [{ seconds := some 5 }]
        { seconds := 5, expires := 7 }).expires =
      7 + (cycleRowPattern 10 [{ seconds := some 5 }]
        { seconds := 5, expires := 7 }).seconds) ∧
    cycleRowPattern 20 [{ seconds := some 5 }] { seconds := 5, expires := 7 } =
      cycleRowPattern 10 [{ seconds := some 5 }] { seconds := 5, expires := 7 } :=
  ⟨(C8_expiry_accumulates 10 [{ seconds := some 5 }]
      { seconds := 5, expires := 7 } (by norm_num)).1,
   (C8_expiry_accumulates 10 [{ seconds := some 5 }]
      { seconds := 5, expires := 7 } (by norm_num)).2 20 (by norm_num)⟩

/-! ## C9: unknown reward keys -/

/-- C9 (contradicting the claim, a code bug): applying a reward whose key
has no entry in the reward table is a silent no-op, not a throw: the
lookup yields `undefined`, the explicit validation is commented out, and
`for (bonus in undefined)` performs zero iterations, so the progress state
is returned unchanged and no error is raised — against the spec and the
source's own comment that the lookup "will fail looking for properties".
(An unknown bonus type inside a known reward entry does throw, as the
claim says.) -/
theorem C9_unknown_reward_key_silent
    (rewards : List (String × List (BonusKey × ℚ))) (p : Progress)
    (reward : String) (multiplier : Option ℚ)
    (hmiss : rewards.lookup reward = none) :
    collectReward rewards p reward multiplier = .ok p := by
  simp [collectReward, hmiss]

/-- C9 witness: collecting the unconfigured key "bogus" against a table
holding only a "goal" reward leaves score, lives and the clock untouched
and raises no error. -/
theorem C9_witness :
    ([("goal", [(BonusKey.score, 100)])] :
      List (String × List (BonusKey × ℚ))).lookup "bogus" = none ∧
    collectReward [("goal", [(BonusKey.score, 100)])]
      { score := 7, lives := 3, elapsedRunning := 10 } "bogus" none =
      .ok { score := 7, lives := 3, elapsedRunning := 10 } :=
  ⟨rfl, C9_unknown_reward_key_silent _ _ _ _ rfl⟩

/-! ## C10: prize wait-time computation -/

/-- C10 counterexample: for the Scenario D rule (`collected: {base: 3}`
only) with no prior collection, expiry or failure, `priorCount = 0` and
the level clock at 0, `prizeWaitTime` returns exactly 0 — not a negative
value as the claim concludes: the elapsed-level-time offset (0 when the
`elapsed` configuration is absent) and the prior-check floor (0 when no
check has been recorded) dominate the far-past offsets. -/
theorem C10_counterexample :
    (prizeWaitTime {} 0 scenarioDRule 0 {}).1 = 0 ∧
    ¬((prizeWaitTime {} 0 scenarioDRule 0 {}).1 < 0) := by
  constructor
  · simp [prizeWaitTime, scenarioDRule, parseTimeConfig, jsNumOr, max_def]
    norm_num
  · simp [prizeWaitTime, scenarioDRule, parseTimeConfig, jsNumOr, max_def]
    norm_num

/-- C10 (amended): `prizeWaitTime` returns the maximum of the four
reference offsets — time since last collection, last expiry and last
probability failure, each reference defaulting to the far past (−999),
plus the elapsed-level-time offset measured from 0 — and of the rule's
previously saved check floor (0 when unset); for the Scenario D rule the
result is exactly 0 for every random draw, so the rule is already
eligible the moment the level starts running. -/
theorem C10_wait_time (pp : PendingPrizeTimes) (elapsedRunning previous : ℚ)
    (rule : WhenRule) (r : PrizeRands) :
    (prizeWaitTime pp elapsedRunning rule previous r).1 =
      max (max (max (max
        (jsNumOr pp.collectionTime (-999) +
          parseTimeConfig rule.collected previous r.collected)
        (jsNumOr pp.expirationTime (-999) +
          parseTimeConfig rule.expired previous r.expired))
        (rule.failureTime.getD (-999) +
          parseTimeConfig rule.failed previous r.failed))
        (parseTimeConfig rule.elapsed previous r.elapsed))
        (jsNumOr rule.checkTime 0) ∧
    (∀ rands : PrizeRands, (prizeWaitTime {} 0 scenarioDRule 0 rands).1 = 0) := by
  constructor
  · rfl
  · intro rands
    simp [prizeWaitTime, scenarioDRule, parseTimeConfig, jsNumOr, max_def]
    norm_num

end Frogger
